import Mathlib

/-!
Shallow embedding of the HA_CGPT trading engine core:
`src/heikin_ashi.py` (Heikin-Ashi candle transform and doji classifier)
and `src/positions.py` (position lifecycle manager).

Prices and percentages (Python floats) are modelled as exact rationals;
quantities as integers.  The stateful `PositionManager` is modelled by
explicit state passing: the mutable `self.position : Optional[Position]`
becomes an `Option Position` argument and result, the order-execution
client becomes a pure function `OrderSide → ℤ → Option String`, and the
notifier fan-out becomes a list of structured messages recording exactly
the data each f-string notification carries.
-/

namespace HACore

/-- Raw OHLCV bar (`candles` dict entries in `heikin_ashi.py`). -/
structure Bar where
  timestamp : ℤ
  open_ : ℚ
  high : ℚ
  low : ℚ
  close : ℚ
  volume : ℚ
deriving DecidableEq, Repr

/-- Heikin-Ashi candle produced by `compute_heikin_ashi`. -/
structure HACandle where
  timestamp : ℤ
  ha_open : ℚ
  ha_high : ℚ
  ha_low : ℚ
  ha_close : ℚ
  volume : ℚ
deriving DecidableEq, Repr

/-- Loop body of `compute_heikin_ashi`: `prev` carries Python's
`(prev_ha_open, prev_ha_close)` pair (`none` on the first iteration). -/
def compute_heikin_ashi_aux (prev : Option (ℚ × ℚ)) : List Bar → List HACandle
  | [] => []
  | b :: rest =>
    let ha_close := (b.open_ + b.high + b.low + b.close) / 4
    let ha_open :=
      match prev with
      | none => (b.open_ + b.close) / 2
      | some (po, pc) => (po + pc) / 2
    let ha_high := max b.high (max ha_open ha_close)
    let ha_low := min b.low (min ha_open ha_close)
    { timestamp := b.timestamp, ha_open := ha_open, ha_high := ha_high,
      ha_low := ha_low, ha_close := ha_close, volume := b.volume }
      :: compute_heikin_ashi_aux (some (ha_open, ha_close)) rest

/-- `compute_heikin_ashi` from `heikin_ashi.py`. -/
def compute_heikin_ashi (candles : List Bar) : List HACandle :=
  compute_heikin_ashi_aux none candles

/-- The four doji subtypes of `classify_heikin_ashi_doji`. -/
inductive DojiType where
  | standard
  | dragonfly
  | gravestone
  | long_legged
deriving DecidableEq, Repr

/-- The dict returned by `classify_heikin_ashi_doji`. -/
structure DojiClassification where
  type : DojiType
  body_pct : ℚ
  upper_pct : ℚ
  lower_pct : ℚ
deriving DecidableEq, Repr

/-- `classify_heikin_ashi_doji` from `heikin_ashi.py`.  The Python
defaults `max_body_pct=0.1`, `min_shadow_pct=0.3` are passed explicitly
by callers here; the `0.1` / `0.6` thresholds inside the dragonfly and
gravestone branches are hard-coded in the source and stay literal. -/
def classify_heikin_ashi_doji (ha_open ha_high ha_low ha_close : ℚ)
    (max_body_pct min_shadow_pct : ℚ) : Option DojiClassification :=
  let rang := ha_high - ha_low
  if rang ≤ 0 then none
  else
    let body := |ha_close - ha_open|
    let body_pct := body / rang
    if body_pct > max_body_pct then none
    else
      let upper_shadow := ha_high - max ha_open ha_close
      let lower_shadow := min ha_open ha_close - ha_low
      let upper_pct := upper_shadow / rang
      let lower_pct := lower_shadow / rang
      let doji_type :=
        if upper_pct < 1/10 ∧ lower_pct > 6/10 then DojiType.dragonfly
        else if lower_pct < 1/10 ∧ upper_pct > 6/10 then DojiType.gravestone
        else if upper_pct > min_shadow_pct ∧ lower_pct > min_shadow_pct then
          DojiType.long_legged
        else DojiType.standard
      some { type := doji_type, body_pct := body_pct,
             upper_pct := upper_pct, lower_pct := lower_pct }

/-- Trading config fields of `config.py` used by `PositionManager`. -/
structure Config where
  capital_per_trade : ℚ
  max_risk_per_trade_pct : ℚ
  profit_target_pct : ℚ
  stop_loss_pct : ℚ
  trailing_stop_pct : ℚ
  fallback_qty : ℤ
deriving DecidableEq, Repr

/-- Position side. -/
inductive Side where
  | LONG
  | SHORT
deriving DecidableEq, Repr

/-- Order side passed to `place_market_order`. -/
inductive OrderSide where
  | BUY
  | SELL
deriving DecidableEq, Repr

/-- The `Position` dataclass of `positions.py`. -/
structure Position where
  side : Side
  qty : ℤ
  entry_price : ℚ
  stop_loss : ℚ
  target : ℚ
  trailing_stop : ℚ
  extreme_price : ℚ
  order_id : Option String
deriving DecidableEq, Repr

/-- Structured content of each notification string the manager emits,
recording exactly the data interpolated into the Python f-string. -/
inductive Msg where
  | entryFailed (side : Side)
  | opened (side : Side) (qty : ℤ) (entry stop_loss target trail_pct : ℚ)
  | closed (side : Side) (reason : String) (exit_price entry pnl_pct : ℚ)
  | exitFailed (reason : String)
deriving DecidableEq, Repr

/-- The order sink: `place_market_order(side, qty) -> Optional[str]`,
modelled as a pure function. -/
def OrderSink : Type := OrderSide → ℤ → Option String

/-- Python truthiness of an `Optional[str]` order id: `not order_id`
is true for both `None` and the empty string. -/
def falsyOrderId : Option String → Bool
  | none => true
  | some s => s.isEmpty

/-- Result of one manager call: the new `self.position`, the orders
submitted to the sink, and the notifications emitted. -/
structure StepResult where
  position : Option Position
  orders : List (OrderSide × ℤ)
  msgs : List Msg
deriving DecidableEq, Repr

/-- `PositionManager._calc_qty_from_risk`. -/
def calc_qty_from_risk (cfg : Config) (entry_price : ℚ) : ℤ :=
  let risk_amount := cfg.capital_per_trade * (cfg.max_risk_per_trade_pct / 100)
  let per_unit_risk := entry_price * (cfg.stop_loss_pct / 100)
  if per_unit_risk ≤ 0 then cfg.fallback_qty
  else max ⌊risk_amount / per_unit_risk⌋ cfg.fallback_qty

/-- Order side used when entering a position of the given side. -/
def entrySide : Side → OrderSide
  | Side.LONG => OrderSide.BUY
  | Side.SHORT => OrderSide.SELL

/-- Order side used when exiting a position of the given side. -/
def exitSide : Side → OrderSide
  | Side.LONG => OrderSide.SELL
  | Side.SHORT => OrderSide.BUY

/-- The realized P&L percentage computed in `_close_position`. -/
def pnlPct (side : Side) (entry exit_price : ℚ) : ℚ :=
  match side with
  | Side.LONG => (exit_price - entry) / entry * 100
  | Side.SHORT => (entry - exit_price) / entry * 100

/-- `PositionManager._open_position`. -/
def open_position (cfg : Config) (sink : OrderSink) (st : Option Position)
    (side : Side) (entry_price : ℚ) : StepResult :=
  match st with
  | some p => { position := some p, orders := [], msgs := [] }
  | none =>
    let qty := calc_qty_from_risk cfg entry_price
    let stop_loss :=
      match side with
      | Side.LONG => entry_price * (1 - cfg.stop_loss_pct / 100)
      | Side.SHORT => entry_price * (1 + cfg.stop_loss_pct / 100)
    let target :=
      match side with
      | Side.LONG => entry_price * (1 + cfg.profit_target_pct / 100)
      | Side.SHORT => entry_price * (1 - cfg.profit_target_pct / 100)
    let trailing_stop := stop_loss
    let extreme_price := entry_price
    let order_side := entrySide side
    let order_id := sink order_side qty
    if falsyOrderId order_id then
      { position := none, orders := [(order_side, qty)],
        msgs := [Msg.entryFailed side] }
    else
      { position := some
          { side := side, qty := qty, entry_price := entry_price,
            stop_loss := stop_loss, target := target,
            trailing_stop := trailing_stop, extreme_price := extreme_price,
            order_id := order_id },
        orders := [(order_side, qty)],
        msgs := [Msg.opened side qty entry_price stop_loss target
                   cfg.trailing_stop_pct] }

/-- `PositionManager.open_long`. -/
def open_long (cfg : Config) (sink : OrderSink) (st : Option Position)
    (entry_price : ℚ) : StepResult :=
  open_position cfg sink st Side.LONG entry_price

/-- `PositionManager.open_short`. -/
def open_short (cfg : Config) (sink : OrderSink) (st : Option Position)
    (entry_price : ℚ) : StepResult :=
  open_position cfg sink st Side.SHORT entry_price

/-- `PositionManager._close_position`. -/
def close_position (sink : OrderSink) (st : Option Position)
    (reason : String) (exit_price : ℚ) : StepResult :=
  match st with
  | none => { position := none, orders := [], msgs := [] }
  | some pos =>
    let order_side := exitSide pos.side
    let pnl_pct := pnlPct pos.side pos.entry_price exit_price
    let order_id := sink order_side pos.qty
    let msg :=
      if falsyOrderId order_id then Msg.exitFailed reason
      else Msg.closed pos.side reason exit_price pos.entry_price pnl_pct
    { position := none, orders := [(order_side, pos.qty)], msgs := [msg] }

/-- The extreme-price / trailing-stop ratchet at the top of
`on_price_update`, performed before the exit checks. -/
def ratchet (cfg : Config) (price : ℚ) (pos : Position) : Position :=
  match pos.side with
  | Side.LONG =>
    if price > pos.extreme_price then
      let extreme := price
      let new_trail := extreme * (1 - cfg.trailing_stop_pct / 100)
      if new_trail > pos.trailing_stop then
        { pos with extreme_price := extreme, trailing_stop := new_trail }
      else { pos with extreme_price := extreme }
    else pos
  | Side.SHORT =>
    if price < pos.extreme_price then
      let extreme := price
      let new_trail := extreme * (1 + cfg.trailing_stop_pct / 100)
      if new_trail < pos.trailing_stop then
        { pos with extreme_price := extreme, trailing_stop := new_trail }
      else { pos with extreme_price := extreme }
    else pos

/-- `PositionManager.on_price_update`: the `if pos.side == "LONG"` branch
is taken first (as in the source), then the ratchet runs, then the three
exit checks fire in priority order against the same price sample. -/
def on_price_update (cfg : Config) (sink : OrderSink) (st : Option Position)
    (price : ℚ) : StepResult :=
  match st with
  | none => { position := none, orders := [], msgs := [] }
  | some pos0 =>
    match pos0.side with
    | Side.LONG =>
      let pos := ratchet cfg price pos0
      if price ≥ pos.target then
        close_position sink (some pos) "profit_target_hit" price
      else if price ≤ pos.stop_loss then
        close_position sink (some pos) "hard_stop_loss_hit" price
      else if price ≤ pos.trailing_stop then
        close_position sink (some pos) "trailing_stop_hit" price
      else { position := some pos, orders := [], msgs := [] }
    | Side.SHORT =>
      let pos := ratchet cfg price pos0
      if price ≤ pos.target then
        close_position sink (some pos) "profit_target_hit" price
      else if price ≥ pos.stop_loss then
        close_position sink (some pos) "hard_stop_loss_hit" price
      else if price ≥ pos.trailing_stop then
        close_position sink (some pos) "trailing_stop_hit" price
      else { position := some pos, orders := [], msgs := [] }

/-- Fold a sequence of price updates through `on_price_update`,
tracking only the position state. -/
def run_updates (cfg : Config) (sink : OrderSink) (st : Option Position) :
    List ℚ → Option Position
  | [] => st
  | p :: ps =>
    run_updates cfg sink ((on_price_update cfg sink st p).position) ps

/-- The reason string carried by a close notification, if any. -/
def msgReason : Msg → Option String
  | Msg.closed _ reason _ _ _ => some reason
  | Msg.exitFailed reason => some reason
  | _ => none

/-- The P&L percentage carried by a notification, if any. -/
def msgPnl : Msg → Option ℚ
  | Msg.closed _ _ _ _ pnl_pct => some pnl_pct
  | _ => none

/-- The trading defaults of `config.py` (`capital_per_trade=100000`,
`max_risk_per_trade_pct=1`, `profit_target_pct=10`, `stop_loss_pct=1`,
`trailing_stop_pct=1`, `fallback_qty=50`). -/
def cfgExample : Config :=
  { capital_per_trade := 100000, max_risk_per_trade_pct := 1,
    profit_target_pct := 10, stop_loss_pct := 1, trailing_stop_pct := 1,
    fallback_qty := 50 }

/-- An order sink whose orders always succeed. -/
def sinkOk : OrderSink := fun _ _ => some "OID1"

/-- An order sink whose orders always fail (returns no order id). -/
def sinkFail : OrderSink := fun _ _ => none

/-- A concrete open LONG position used to exercise exit handling. -/
def posExit : Position :=
  { side := Side.LONG, qty := 500, entry_price := 100, stop_loss := 99,
    target := 110, trailing_stop := 99, extreme_price := 100,
    order_id := some "E1" }

/-- The LONG position of the spec's exit-priority example:
`target=110, stop_loss=99, trailing_stop=100`. -/
def posPriority : Position :=
  { side := Side.LONG, qty := 50, entry_price := 100, stop_loss := 99,
    target := 110, trailing_stop := 100, extreme_price := 100,
    order_id := some "E2" }

/-- The position produced by a successful `open_long` at entry 100 under
`cfgExample` and `sinkOk`. -/
def posOpened : Position :=
  { side := Side.LONG, qty := 1000, entry_price := 100, stop_loss := 99,
    target := 110, trailing_stop := 99, extreme_price := 100,
    order_id := some "OID1" }

/-- `posOpened` after one price update at 105 (ratcheted trail). -/
def posAfter : Position :=
  { side := Side.LONG, qty := 1000, entry_price := 100, stop_loss := 99,
    target := 110, trailing_stop := 10395/100, extreme_price := 105,
    order_id := some "OID1" }

/-- The spec's round-trip example bars:
`[(o=100,h=105,l=95,c=102), (o=102,h=108,l=100,c=103)]`. -/
def barsExample : List Bar :=
  [{ timestamp := 0, open_ := 100, high := 105, low := 95, close := 102, volume := 0 },
   { timestamp := 1, open_ := 102, high := 108, low := 100, close := 103, volume := 0 }]

end HACore

namespace HACore

/-! ## Helper lemmas about the ratchet and single steps -/

/-- The ratchet changes only `extreme_price` and `trailing_stop`. -/
theorem ratchet_preserves (cfg : Config) (price : ℚ) (pos : Position) :
    (ratchet cfg price pos).side = pos.side ∧
    (ratchet cfg price pos).qty = pos.qty ∧
    (ratchet cfg price pos).entry_price = pos.entry_price ∧
    (ratchet cfg price pos).stop_loss = pos.stop_loss ∧
    (ratchet cfg price pos).target = pos.target ∧
    (ratchet cfg price pos).order_id = pos.order_id := by
  obtain ⟨side, q, e, sl, tg, tr, ex, oid⟩ := pos
  cases side <;> (simp only [ratchet]; split_ifs <;> simp)

/-- The ratchet moves the trailing stop only in the position's favor. -/
theorem ratchet_trail (cfg : Config) (price : ℚ) (pos : Position) :
    (pos.side = Side.LONG →
      pos.trailing_stop ≤ (ratchet cfg price pos).trailing_stop) ∧
    (pos.side = Side.SHORT →
      (ratchet cfg price pos).trailing_stop ≤ pos.trailing_stop) := by
  obtain ⟨side, q, e, sl, tg, tr, ex, oid⟩ := pos
  cases side with
  | LONG =>
    refine ⟨fun _ => ?_, fun hs => by simp at hs⟩
    simp only [ratchet]
    split_ifs with h1 h2
    · exact le_of_lt h2
    · exact le_rfl
    · exact le_rfl
  | SHORT =>
    refine ⟨fun hs => by simp at hs, fun _ => ?_⟩
    simp only [ratchet]
    split_ifs with h1 h2
    · exact le_of_lt h2
    · exact le_rfl
    · exact le_rfl

/-- The single notification of `_close_position`: an `exitFailed` message
when the exit order id is falsy, a `closed` message carrying the realized
P&L percentage otherwise. -/
theorem close_position_msgs (sink : OrderSink) (pos : Position) (reason : String)
    (exit_price : ℚ) :
    (close_position sink (some pos) reason exit_price).msgs =
      [if falsyOrderId (sink (exitSide pos.side) pos.qty) then Msg.exitFailed reason
       else Msg.closed pos.side reason exit_price pos.entry_price
         (pnlPct pos.side pos.entry_price exit_price)] := rfl

/-- One `on_price_update` call on an open position either delegates to
`_close_position` on the ratcheted position with some reason, or keeps
the ratcheted position open with no side effects. -/
theorem step_cases (cfg : Config) (sink : OrderSink) (pos : Position) (price : ℚ) :
    (∃ reason, on_price_update cfg sink (some pos) price =
        close_position sink (some (ratchet cfg price pos)) reason price) ∨
    on_price_update cfg sink (some pos) price =
      { position := some (ratchet cfg price pos), orders := [], msgs := [] } := by
  obtain ⟨side, q, e, sl, tg, tr, ex, oid⟩ := pos
  cases side <;>
    (simp only [on_price_update]
     split_ifs <;>
       first
         | exact Or.inl ⟨"profit_target_hit", rfl⟩
         | exact Or.inl ⟨"hard_stop_loss_hit", rfl⟩
         | exact Or.inl ⟨"trailing_stop_hit", rfl⟩
         | exact Or.inr rfl)

/-! ## C1 -/

/-- C1 counterexample: the claim says the exit notification reports the
realized P&L percentage regardless of order outcome.  On a concrete LONG
position (entry 100, target 110) hit by price 111 with a failing order
sink, the position closes but the single emitted notification is the
failure message, which carries no P&L percentage at all. -/
theorem claim_C1_counterexample_failed_exit_drops_pnl :
    (on_price_update cfgExample sinkFail (some posExit) 111).position = none ∧
    (on_price_update cfgExample sinkFail (some posExit) 111).msgs =
      [Msg.exitFailed "profit_target_hit"] ∧
    (on_price_update cfgExample sinkFail (some posExit) 111).msgs.filterMap msgPnl = [] := by
  norm_num [on_price_update, ratchet, close_position, cfgExample, posExit, sinkFail,
    falsyOrderId, exitSide, pnlPct, msgPnl]

/-- C1 (amended): whenever a price update closes an open position, exactly
one notification is emitted regardless of order outcome; it reports the
realized P&L percentage (`(exit-entry)/entry*100` for LONG,
`(entry-exit)/entry*100` for SHORT) when the exit order placement
succeeds, and reports only the failure reason when it fails. -/
theorem claim_C1_exit_notification (cfg : Config) (sink : OrderSink)
    (pos : Position) (price : ℚ)
    (hclosed : (on_price_update cfg sink (some pos) price).position = none) :
    ∃ reason : String,
      (on_price_update cfg sink (some pos) price).msgs =
        [if falsyOrderId (sink (exitSide pos.side) pos.qty) then Msg.exitFailed reason
         else Msg.closed pos.side reason price pos.entry_price
           (pnlPct pos.side pos.entry_price price)] := by
  rcases step_cases cfg sink pos price with ⟨reason, hstep⟩ | hstep
  · refine ⟨reason, ?_⟩
    rw [hstep, close_position_msgs]
    have h := ratchet_preserves cfg price pos
    rw [h.1, h.2.1, h.2.2.1]
  · rw [hstep] at hclosed
    simp at hclosed

/-- Witness for the amended C1 at a successful target exit: entry 100,
exit 111 under an always-succeeding sink. -/
theorem claim_C1_exit_notification_witness :
    (on_price_update cfgExample sinkOk (some posExit) 111).position = none ∧
    (∃ reason : String,
      (on_price_update cfgExample sinkOk (some posExit) 111).msgs =
        [if falsyOrderId (sinkOk (exitSide posExit.side) posExit.qty) then
           Msg.exitFailed reason
         else Msg.closed posExit.side reason 111 posExit.entry_price
           (pnlPct posExit.side posExit.entry_price 111)]) :=
  ⟨by norm_num [on_price_update, ratchet, close_position, cfgExample, posExit, sinkOk,
      falsyOrderId, exitSide, pnlPct],
   claim_C1_exit_notification cfgExample sinkOk posExit 111
     (by norm_num [on_price_update, ratchet, close_position, cfgExample, posExit, sinkOk,
       falsyOrderId, exitSide, pnlPct])⟩

/-! ## C2, C6, C7 -/

/-- C2: at most one position at a time — calling `open_long` or
`open_short` (any direction, any entry price) while a position is already
open leaves the position unchanged, creates no new `Position`, places no
order with the order sink, and emits no notification. -/
theorem claim_C2_open_is_noop_when_open (cfg : Config) (sink : OrderSink)
    (p : Position) (entry_price : ℚ) :
    open_long cfg sink (some p) entry_price =
      { position := some p, orders := [], msgs := [] } ∧
    open_short cfg sink (some p) entry_price =
      { position := some p, orders := [], msgs := [] } :=
  ⟨rfl, rfl⟩

/-- C6: position sizing — when `per_unit_risk = entry_price*stop_loss_pct/100`
is positive, `qty = max ⌊risk_amount / per_unit_risk⌋ fallback_qty` with
`risk_amount = capital_per_trade*max_risk_pct/100`; when `per_unit_risk ≤ 0`
the size is `fallback_qty` directly; and the concrete example
(capital 100000, max risk 1%, SL 1%, entry 200, fallback 50) yields 500. -/
theorem claim_C6_risk_sizing (cfg : Config) (entry_price : ℚ) :
    (entry_price * (cfg.stop_loss_pct / 100) ≤ 0 →
      calc_qty_from_risk cfg entry_price = cfg.fallback_qty) ∧
    (0 < entry_price * (cfg.stop_loss_pct / 100) →
      calc_qty_from_risk cfg entry_price =
        max ⌊(cfg.capital_per_trade * (cfg.max_risk_per_trade_pct / 100)) /
              (entry_price * (cfg.stop_loss_pct / 100))⌋ cfg.fallback_qty) ∧
    calc_qty_from_risk cfgExample 200 = 500 := by
  refine ⟨fun hle => ?_, fun hpos => ?_, by norm_num [calc_qty_from_risk, cfgExample]⟩
  · simp only [calc_qty_from_risk]
    rw [if_pos hle]
  · simp only [calc_qty_from_risk]
    rw [if_neg (not_le.mpr hpos)]

/-- Witness for C6 at the spec's example: entry 200 under the default
config gives positive per-unit risk and qty `max ⌊1000/2⌋ 50 = 500`. -/
theorem claim_C6_risk_sizing_witness :
    (0 : ℚ) < 200 * (cfgExample.stop_loss_pct / 100) ∧
    calc_qty_from_risk cfgExample 200 =
      max ⌊(cfgExample.capital_per_trade * (cfgExample.max_risk_per_trade_pct / 100)) /
            (200 * (cfgExample.stop_loss_pct / 100))⌋ cfgExample.fallback_qty ∧
    calc_qty_from_risk cfgExample 200 = 500 :=
  ⟨by norm_num [cfgExample], (claim_C6_risk_sizing cfgExample 200).2.1 (by norm_num [cfgExample]),
    (claim_C6_risk_sizing cfgExample 200).2.2⟩

/-- C7: entry is atomic with respect to order failure — if the order sink
reports no usable order id for the entry order, the manager stays FLAT
(no `Position` is created), the only side effect beyond the attempted
order is a failure notification. -/
theorem claim_C7_failed_entry_stays_flat (cfg : Config) (sink : OrderSink)
    (side : Side) (entry_price : ℚ)
    (hfail : falsyOrderId
      (sink (entrySide side) (calc_qty_from_risk cfg entry_price)) = true) :
    open_position cfg sink none side entry_price =
      { position := none,
        orders := [(entrySide side, calc_qty_from_risk cfg entry_price)],
        msgs := [Msg.entryFailed side] } := by
  cases side <;>
    (simp only [open_position, entrySide] at hfail ⊢; rw [if_pos hfail])

/-- Witness for C7: a sink that always fails, LONG entry at 100 under the
default config. -/
theorem claim_C7_failed_entry_stays_flat_witness :
    falsyOrderId
      (sinkFail (entrySide Side.LONG) (calc_qty_from_risk cfgExample 100)) = true ∧
    open_position cfgExample sinkFail none Side.LONG 100 =
      { position := none,
        orders := [(entrySide Side.LONG, calc_qty_from_risk cfgExample 100)],
        msgs := [Msg.entryFailed Side.LONG] } :=
  ⟨rfl, claim_C7_failed_entry_stays_flat cfgExample sinkFail Side.LONG 100 rfl⟩

/-! ## C4 -/

/-- C4: exit conditions are checked in fixed priority order against the
ratcheted position — (1) target, (2) hard stop-loss, (3) trailing stop,
with side-dependent comparisons — and the first matching condition
determines the exit reason, short-circuiting the remaining checks; if
none matches the position stays open. -/
theorem claim_C4_exit_priority (cfg : Config) (sink : OrderSink)
    (pos : Position) (price : ℚ) :
    (pos.side = Side.LONG →
      (price ≥ (ratchet cfg price pos).target →
        on_price_update cfg sink (some pos) price =
          close_position sink (some (ratchet cfg price pos)) "profit_target_hit" price) ∧
      (¬ price ≥ (ratchet cfg price pos).target →
       price ≤ (ratchet cfg price pos).stop_loss →
        on_price_update cfg sink (some pos) price =
          close_position sink (some (ratchet cfg price pos)) "hard_stop_loss_hit" price) ∧
      (¬ price ≥ (ratchet cfg price pos).target →
       ¬ price ≤ (ratchet cfg price pos).stop_loss →
       price ≤ (ratchet cfg price pos).trailing_stop →
        on_price_update cfg sink (some pos) price =
          close_position sink (some (ratchet cfg price pos)) "trailing_stop_hit" price) ∧
      (¬ price ≥ (ratchet cfg price pos).target →
       ¬ price ≤ (ratchet cfg price pos).stop_loss →
       ¬ price ≤ (ratchet cfg price pos).trailing_stop →
        on_price_update cfg sink (some pos) price =
          { position := some (ratchet cfg price pos), orders := [], msgs := [] })) ∧
    (pos.side = Side.SHORT →
      (price ≤ (ratchet cfg price pos).target →
        on_price_update cfg sink (some pos) price =
          close_position sink (some (ratchet cfg price pos)) "profit_target_hit" price) ∧
      (¬ price ≤ (ratchet cfg price pos).target →
       price ≥ (ratchet cfg price pos).stop_loss →
        on_price_update cfg sink (some pos) price =
          close_position sink (some (ratchet cfg price pos)) "hard_stop_loss_hit" price) ∧
      (¬ price ≤ (ratchet cfg price pos).target →
       ¬ price ≥ (ratchet cfg price pos).stop_loss →
       price ≥ (ratchet cfg price pos).trailing_stop →
        on_price_update cfg sink (some pos) price =
          close_position sink (some (ratchet cfg price pos)) "trailing_stop_hit" price) ∧
      (¬ price ≤ (ratchet cfg price pos).target →
       ¬ price ≥ (ratchet cfg price pos).stop_loss →
       ¬ price ≥ (ratchet cfg price pos).trailing_stop →
        on_price_update cfg sink (some pos) price =
          { position := some (ratchet cfg price pos), orders := [], msgs := [] })) := by
  obtain ⟨side, q, e, sl, tg, tr, ex, oid⟩ := pos
  cases side with
  | LONG =>
    refine ⟨fun _ => ⟨fun h1 => ?_, fun h1 h2 => ?_, fun h1 h2 h3 => ?_,
      fun h1 h2 h3 => ?_⟩, fun hs => by simp at hs⟩ <;>
      simp only [on_price_update]
    · rw [if_pos h1]
    · rw [if_neg h1, if_pos h2]
    · rw [if_neg h1, if_neg h2, if_pos h3]
    · rw [if_neg h1, if_neg h2, if_neg h3]
  | SHORT =>
    refine ⟨fun hs => by simp at hs, fun _ => ⟨fun h1 => ?_, fun h1 h2 => ?_,
      fun h1 h2 h3 => ?_, fun h1 h2 h3 => ?_⟩⟩ <;>
      simp only [on_price_update]
    · rw [if_pos h1]
    · rw [if_neg h1, if_pos h2]
    · rw [if_neg h1, if_neg h2, if_pos h3]
    · rw [if_neg h1, if_neg h2, if_neg h3]

/-- Witness for C4 at the spec example: LONG with `target=110`,
`stop_loss=99`, `trailing_stop=100` and a price update of 111 exits with
the target reason. -/
theorem claim_C4_exit_priority_witness :
    posPriority.side = Side.LONG ∧
    111 ≥ (ratchet cfgExample 111 posPriority).target ∧
    on_price_update cfgExample sinkOk (some posPriority) 111 =
      close_position sinkOk (some (ratchet cfgExample 111 posPriority))
        "profit_target_hit" 111 ∧
    (on_price_update cfgExample sinkOk (some posPriority) 111).msgs.filterMap msgReason =
      ["profit_target_hit"] :=
  ⟨rfl, by norm_num [ratchet, posPriority, cfgExample],
   ((claim_C4_exit_priority cfgExample sinkOk posPriority 111).1 rfl).1
     (by norm_num [ratchet, posPriority, cfgExample]),
   by
     norm_num [on_price_update, ratchet, close_position, posPriority, cfgExample,
       sinkOk, falsyOrderId, exitSide, pnlPct,
       show "OID1".isEmpty = false from rfl]
     decide⟩

/-! ## C3 and C10: run-level invariants -/

/-- Once the state is FLAT, any further price updates leave it FLAT. -/
theorem run_updates_none (cfg : Config) (sink : OrderSink) (prices : List ℚ) :
    run_updates cfg sink none prices = none := by
  induction prices with
  | nil => rfl
  | cons p ps ih => simpa [run_updates, on_price_update] using ih

/-- If a price update leaves the position open, the resulting position is
exactly the ratcheted one. -/
theorem on_price_update_open (cfg : Config) (sink : OrderSink) (pos q : Position)
    (price : ℚ)
    (h : (on_price_update cfg sink (some pos) price).position = some q) :
    q = ratchet cfg price pos := by
  rcases step_cases cfg sink pos price with ⟨reason, hstep⟩ | hstep
  · rw [hstep] at h
    simp [close_position] at h
  · rw [hstep] at h
    exact (Option.some.inj h).symm

/-- Invariant over any sequence of price updates that leaves the position
open: side, qty, entry, stop-loss and target never change, and the
trailing stop moves only in the position's favor. -/
theorem run_updates_invariant (cfg : Config) (sink : OrderSink) (prices : List ℚ) :
    ∀ pos q : Position, run_updates cfg sink (some pos) prices = some q →
      q.side = pos.side ∧ q.qty = pos.qty ∧ q.entry_price = pos.entry_price ∧
      q.stop_loss = pos.stop_loss ∧ q.target = pos.target ∧
      (pos.side = Side.LONG → pos.trailing_stop ≤ q.trailing_stop) ∧
      (pos.side = Side.SHORT → q.trailing_stop ≤ pos.trailing_stop) := by
  induction prices with
  | nil =>
    intro pos q h
    obtain rfl : pos = q := Option.some.inj h
    exact ⟨rfl, rfl, rfl, rfl, rfl, fun _ => le_rfl, fun _ => le_rfl⟩
  | cons p ps ih =>
    intro pos q h
    simp only [run_updates] at h
    cases hstep : (on_price_update cfg sink (some pos) p).position with
    | none =>
      rw [hstep, run_updates_none] at h
      exact absurd h (by simp)
    | some r =>
      rw [hstep] at h
      have hr : r = ratchet cfg p pos := on_price_update_open cfg sink pos r p hstep
      have hir := ih r q h
      rw [hr] at hir
      have hp := ratchet_preserves cfg p pos
      have ht := ratchet_trail cfg p pos
      refine ⟨hir.1.trans hp.1, hir.2.1.trans hp.2.1, hir.2.2.1.trans hp.2.2.1,
        hir.2.2.2.1.trans hp.2.2.2.1, hir.2.2.2.2.1.trans hp.2.2.2.2.1, ?_, ?_⟩
      · intro hs
        exact (ht.1 hs).trans (hir.2.2.2.2.2.1 (hp.1.trans hs))
      · intro hs
        exact (hir.2.2.2.2.2.2 (hp.1.trans hs)).trans (ht.2 hs)

/-- C3: the trailing stop is monotonic in the position's favor — over any
sequence of `on_price_update` calls (arbitrary prices, not only monotone
sequences) after which the position is still open, `trailing_stop` never
decreased for a LONG position and never increased for a SHORT one. -/
theorem claim_C3_trailing_monotonic (cfg : Config) (sink : OrderSink)
    (pos q : Position) (prices : List ℚ)
    (h : run_updates cfg sink (some pos) prices = some q) :
    (pos.side = Side.LONG → pos.trailing_stop ≤ q.trailing_stop) ∧
    (pos.side = Side.SHORT → q.trailing_stop ≤ pos.trailing_stop) :=
  ⟨(run_updates_invariant cfg sink prices pos q h).2.2.2.2.2.1,
   (run_updates_invariant cfg sink prices pos q h).2.2.2.2.2.2⟩

/-- Witness for C3: a LONG position at entry 100 updated with price 105
stays open and its trailing stop rises from 99 to 103.95. -/
theorem claim_C3_trailing_monotonic_witness :
    run_updates cfgExample sinkOk (some posOpened) [105] = some posAfter ∧
    ((posOpened.side = Side.LONG → posOpened.trailing_stop ≤ posAfter.trailing_stop) ∧
     (posOpened.side = Side.SHORT → posAfter.trailing_stop ≤ posOpened.trailing_stop)) := by
  have hrun : run_updates cfgExample sinkOk (some posOpened) [105] = some posAfter := by
    norm_num [run_updates, on_price_update, ratchet, posOpened, posAfter, cfgExample]
  exact ⟨hrun, claim_C3_trailing_monotonic cfgExample sinkOk posOpened posAfter [105] hrun⟩

/-- A successful entry produces a position of the requested side whose
trailing stop starts out equal to its stop-loss. -/
theorem open_position_success (cfg : Config) (sink : OrderSink) (side : Side)
    (entry_price : ℚ) (pos0 : Position)
    (h : (open_position cfg sink none side entry_price).position = some pos0) :
    pos0.side = side ∧ pos0.trailing_stop = pos0.stop_loss := by
  cases side <;>
    (simp only [open_position] at h
     split_ifs at h
     simp only [StepResult.mk.injEq, Option.some.injEq] at h
     rw [← h]
     exact ⟨rfl, rfl⟩)

/-- C10: the trailing stop never sits on the wrong side of the hard stop —
for any position opened from FLAT (entry price positive, non-negative
stop-loss and trailing-stop percentages) and any sequence of price updates
after which it is still open, `stop_loss ≤ trailing_stop` holds for LONG
and `trailing_stop ≤ stop_loss` for SHORT. -/
theorem claim_C10_trail_vs_stop (cfg : Config) (sink sink2 : OrderSink)
    (side : Side) (entry_price : ℚ) (prices : List ℚ) (pos0 q : Position)
    (_hentry : 0 < entry_price) (_hsl : 0 ≤ cfg.stop_loss_pct)
    (_htr : 0 ≤ cfg.trailing_stop_pct)
    (hopen : (open_position cfg sink none side entry_price).position = some pos0)
    (hrun : run_updates cfg sink2 (some pos0) prices = some q) :
    (side = Side.LONG → q.stop_loss ≤ q.trailing_stop) ∧
    (side = Side.SHORT → q.trailing_stop ≤ q.stop_loss) := by
  obtain ⟨hside, htrail⟩ := open_position_success cfg sink side entry_price pos0 hopen
  have hinv := run_updates_invariant cfg sink2 prices pos0 q hrun
  constructor
  · intro hs
    calc q.stop_loss = pos0.stop_loss := hinv.2.2.2.1
      _ = pos0.trailing_stop := htrail.symm
      _ ≤ q.trailing_stop := hinv.2.2.2.2.2.1 (hside.trans hs)
  · intro hs
    calc q.trailing_stop ≤ pos0.trailing_stop := hinv.2.2.2.2.2.2 (hside.trans hs)
      _ = pos0.stop_loss := htrail
      _ = q.stop_loss := hinv.2.2.2.1.symm

/-- Witness for C10: LONG entry at 100 under the default config, one
update at 105; the trail (103.95) stays above the stop (99). -/
theorem claim_C10_trail_vs_stop_witness :
    (0 : ℚ) < 100 ∧ (0 : ℚ) ≤ cfgExample.stop_loss_pct ∧
    (0 : ℚ) ≤ cfgExample.trailing_stop_pct ∧
    (open_position cfgExample sinkOk none Side.LONG 100).position = some posOpened ∧
    run_updates cfgExample sinkOk (some posOpened) [105] = some posAfter ∧
    ((Side.LONG = Side.LONG → posAfter.stop_loss ≤ posAfter.trailing_stop) ∧
     (Side.LONG = Side.SHORT → posAfter.trailing_stop ≤ posAfter.stop_loss)) := by
  have hopen : (open_position cfgExample sinkOk none Side.LONG 100).position = some posOpened := by
    norm_num [open_position, calc_qty_from_risk, cfgExample, entrySide, falsyOrderId,
      sinkOk, posOpened, show "OID1".isEmpty = false from rfl]
  have hrun : run_updates cfgExample sinkOk (some posOpened) [105] = some posAfter := by
    norm_num [run_updates, on_price_update, ratchet, posOpened, posAfter, cfgExample]
  exact ⟨by norm_num, by norm_num [cfgExample], by norm_num [cfgExample], hopen, hrun,
    claim_C10_trail_vs_stop cfgExample sinkOk sinkOk Side.LONG 100 [105] posOpened posAfter
      (by norm_num) (by norm_num [cfgExample]) (by norm_num [cfgExample]) hopen hrun⟩

/-! ## C5 and C9: the doji classifier -/

/-- C5: for well-formed candle tuples (`h ≥ max o c`, `l ≤ min o c`,
`h > l`) and the default thresholds, the classifier returns `none` iff
`|c-o|/(h-l) > 0.1`; otherwise it returns exactly one classification
whose type follows the fixed priority order dragonfly → gravestone →
long_legged → standard. -/
theorem claim_C5_classifier_cases (o h l c : ℚ)
    (_hh : max o c ≤ h) (_hl : l ≤ min o c) (hlt : l < h) :
    (classify_heikin_ashi_doji o h l c (1/10) (3/10) = none ↔ |c - o| / (h - l) > 1/10) ∧
    (|c - o| / (h - l) ≤ 1/10 →
      ∃ cls : DojiClassification,
        classify_heikin_ashi_doji o h l c (1/10) (3/10) = some cls ∧
        cls.body_pct = |c - o| / (h - l) ∧
        cls.upper_pct = (h - max o c) / (h - l) ∧
        cls.lower_pct = (min o c - l) / (h - l) ∧
        (cls.type = DojiType.dragonfly ↔
          cls.upper_pct < 1/10 ∧ cls.lower_pct > 6/10) ∧
        (cls.type = DojiType.gravestone ↔
          ¬ (cls.upper_pct < 1/10 ∧ cls.lower_pct > 6/10) ∧
          (cls.lower_pct < 1/10 ∧ cls.upper_pct > 6/10)) ∧
        (cls.type = DojiType.long_legged ↔
          ¬ (cls.upper_pct < 1/10 ∧ cls.lower_pct > 6/10) ∧
          ¬ (cls.lower_pct < 1/10 ∧ cls.upper_pct > 6/10) ∧
          (cls.upper_pct > 3/10 ∧ cls.lower_pct > 3/10)) ∧
        (cls.type = DojiType.standard ↔
          ¬ (cls.upper_pct < 1/10 ∧ cls.lower_pct > 6/10) ∧
          ¬ (cls.lower_pct < 1/10 ∧ cls.upper_pct > 6/10) ∧
          ¬ (cls.upper_pct > 3/10 ∧ cls.lower_pct > 3/10))) := by
  have hrang : ¬ (h - l ≤ 0) := by linarith
  constructor
  · simp only [classify_heikin_ashi_doji]
    rw [if_neg hrang]
    split_ifs with hbp
    · exact iff_of_true rfl hbp
    · exact iff_of_false (by simp) hbp
  · intro hbp
    simp only [classify_heikin_ashi_doji]
    rw [if_neg hrang, if_neg (not_lt.mpr hbp)]
    refine ⟨_, rfl, rfl, rfl, rfl, ?_, ?_, ?_, ?_⟩ <;>
      (dsimp only
       split_ifs with h1 h2 h3 <;> simp_all)

/-- Witness for C5 at `(o,h,l,c) = (100, 103, 98, 100.5)`: a valid
long-legged doji candle (body 10%, shadows 50% and 40%). -/
theorem claim_C5_classifier_cases_witness :
    (max (100:ℚ) (201/2) ≤ 103 ∧ (98:ℚ) ≤ min 100 (201/2) ∧ (98:ℚ) < 103) ∧
    ((classify_heikin_ashi_doji 100 103 98 (201/2) (1/10) (3/10) = none ↔
        |(201/2 : ℚ) - 100| / (103 - 98) > 1/10) ∧
     (|(201/2 : ℚ) - 100| / (103 - 98) ≤ 1/10 →
       ∃ cls : DojiClassification,
         classify_heikin_ashi_doji 100 103 98 (201/2) (1/10) (3/10) = some cls ∧
         cls.body_pct = |(201/2 : ℚ) - 100| / (103 - 98) ∧
         cls.upper_pct = ((103:ℚ) - max 100 (201/2)) / (103 - 98) ∧
         cls.lower_pct = (min (100:ℚ) (201/2) - 98) / (103 - 98) ∧
         (cls.type = DojiType.dragonfly ↔
           cls.upper_pct < 1/10 ∧ cls.lower_pct > 6/10) ∧
         (cls.type = DojiType.gravestone ↔
           ¬ (cls.upper_pct < 1/10 ∧ cls.lower_pct > 6/10) ∧
           (cls.lower_pct < 1/10 ∧ cls.upper_pct > 6/10)) ∧
         (cls.type = DojiType.long_legged ↔
           ¬ (cls.upper_pct < 1/10 ∧ cls.lower_pct > 6/10) ∧
           ¬ (cls.lower_pct < 1/10 ∧ cls.upper_pct > 6/10) ∧
           (cls.upper_pct > 3/10 ∧ cls.lower_pct > 3/10)) ∧
         (cls.type = DojiType.standard ↔
           ¬ (cls.upper_pct < 1/10 ∧ cls.lower_pct > 6/10) ∧
           ¬ (cls.lower_pct < 1/10 ∧ cls.upper_pct > 6/10) ∧
           ¬ (cls.upper_pct > 3/10 ∧ cls.lower_pct > 3/10)))) :=
  ⟨⟨by norm_num, by norm_num, by norm_num⟩,
   claim_C5_classifier_cases 100 103 98 (201/2) (by norm_num) (by norm_num) (by norm_num)⟩

/-- C9: whenever the classifier returns a classification on a well-formed
candle tuple, the returned percentages partition the candle exactly:
`body_pct + upper_shadow_pct + lower_shadow_pct = 1`. -/
theorem claim_C9_pct_partition (o h l c : ℚ)
    (_hh : max o c ≤ h) (_hl : l ≤ min o c) (hlt : l < h)
    (cls : DojiClassification)
    (hcls : classify_heikin_ashi_doji o h l c (1/10) (3/10) = some cls) :
    cls.body_pct + cls.upper_pct + cls.lower_pct = 1 := by
  have hrang : ¬ (h - l ≤ 0) := by linarith
  have hne : h - l ≠ 0 := by linarith
  have habs : |c - o| = max o c - min o c := (max_sub_min_eq_abs o c).symm
  simp only [classify_heikin_ashi_doji] at hcls
  rw [if_neg hrang] at hcls
  split_ifs at hcls <;>
    (simp only [Option.some.injEq] at hcls
     rw [← hcls]
     dsimp only
     rw [div_add_div_same, div_add_div_same, habs, div_eq_one_iff_eq hne]
     ring)

/-- Witness for C9 at `(o,h,l,c) = (100, 101, 99, 100)`: a symmetric
long-legged doji; `0 + 1/2 + 1/2 = 1`. -/
theorem claim_C9_pct_partition_witness :
    (max (100:ℚ) 100 ≤ 101 ∧ (99:ℚ) ≤ min 100 100 ∧ (99:ℚ) < 101 ∧
     classify_heikin_ashi_doji 100 101 99 100 (1/10) (3/10) =
       some { type := DojiType.long_legged, body_pct := 0,
              upper_pct := 1/2, lower_pct := 1/2 }) ∧
    ({ type := DojiType.long_legged, body_pct := 0, upper_pct := 1/2,
       lower_pct := 1/2 } : DojiClassification).body_pct +
      ({ type := DojiType.long_legged, body_pct := 0, upper_pct := 1/2,
         lower_pct := 1/2 } : DojiClassification).upper_pct +
      ({ type := DojiType.long_legged, body_pct := 0, upper_pct := 1/2,
         lower_pct := 1/2 } : DojiClassification).lower_pct = 1 := by
  have hcls : classify_heikin_ashi_doji 100 101 99 100 (1/10) (3/10) =
      some { type := DojiType.long_legged, body_pct := 0,
             upper_pct := 1/2, lower_pct := 1/2 } := by
    norm_num [classify_heikin_ashi_doji]
  exact ⟨⟨by norm_num, by norm_num, by norm_num, hcls⟩,
    claim_C9_pct_partition 100 101 99 100 (by norm_num) (by norm_num) (by norm_num) _ hcls⟩

/-! ## C8: the candle transformer -/

/-- The transform preserves length. -/
theorem compute_heikin_ashi_aux_length (prev : Option (ℚ × ℚ)) (bars : List Bar) :
    (compute_heikin_ashi_aux prev bars).length = bars.length := by
  induction bars generalizing prev with
  | nil => rfl
  | cons b rest ih => simp [compute_heikin_ashi_aux, ih]

/-- Each output candle's high/low envelope the corresponding bar's
high/low and the candle's own open/close, regardless of the seed. -/
theorem compute_heikin_ashi_aux_high_low (bars : List Bar) :
    ∀ (prev : Option (ℚ × ℚ)) (i : ℕ) (b : Bar) (hc : HACandle),
      bars[i]? = some b → (compute_heikin_ashi_aux prev bars)[i]? = some hc →
      hc.ha_high = max b.high (max hc.ha_open hc.ha_close) ∧
      hc.ha_low = min b.low (min hc.ha_open hc.ha_close) := by
  induction bars with
  | nil => intro prev i b hc h1 _h2; simp at h1
  | cons a rest ih =>
    intro prev i b hc h1 h2
    cases i with
    | zero =>
      simp only [List.getElem?_cons_zero, Option.some.injEq] at h1
      simp only [compute_heikin_ashi_aux, List.getElem?_cons_zero,
        Option.some.injEq] at h2
      rw [← h1, ← h2]
      exact ⟨rfl, rfl⟩
    | succ n =>
      simp only [List.getElem?_cons_succ] at h1
      simp only [compute_heikin_ashi_aux, List.getElem?_cons_succ] at h2
      exact ih _ n b hc h1 h2

/-- The forward recurrence of opens, regardless of the seed. -/
theorem compute_heikin_ashi_aux_chain (bars : List Bar) :
    ∀ (prev : Option (ℚ × ℚ)) (i : ℕ) (hc hc2 : HACandle),
      (compute_heikin_ashi_aux prev bars)[i]? = some hc →
      (compute_heikin_ashi_aux prev bars)[i+1]? = some hc2 →
      hc2.ha_open = (hc.ha_open + hc.ha_close) / 2 := by
  induction bars with
  | nil => intro prev i hc hc2 h1 _h2; simp [compute_heikin_ashi_aux] at h1
  | cons a rest ih =>
    intro prev i hc hc2 h1 h2
    cases i with
    | zero =>
      simp only [compute_heikin_ashi_aux, List.getElem?_cons_zero,
        List.getElem?_cons_succ, Option.some.injEq] at h1 h2
      cases rest with
      | nil => simp [compute_heikin_ashi_aux] at h2
      | cons a2 rest2 =>
        simp only [compute_heikin_ashi_aux, List.getElem?_cons_zero,
          Option.some.injEq] at h2
        rw [← h1, ← h2]
    | succ n =>
      simp only [compute_heikin_ashi_aux, List.getElem?_cons_succ] at h1 h2
      exact ih _ n hc hc2 h1 h2

/-- C8: for every non-empty bar sequence, the transform's output has the
same length, every element satisfies
`ha_high = max(bar.high, ha_open, ha_close)` and
`ha_low = min(bar.low, ha_open, ha_close)`, the first open is
`(bar.open + bar.close)/2`, and each later open is the mean of the
previous candle's open and close. -/
theorem claim_C8_transform_invariants (bars : List Bar) (_hne : bars ≠ []) :
    (compute_heikin_ashi bars).length = bars.length ∧
    (∀ (i : ℕ) (b : Bar) (hc : HACandle),
      bars[i]? = some b → (compute_heikin_ashi bars)[i]? = some hc →
      hc.ha_high = max b.high (max hc.ha_open hc.ha_close) ∧
      hc.ha_low = min b.low (min hc.ha_open hc.ha_close)) ∧
    (∀ (b : Bar) (hc : HACandle),
      bars[0]? = some b → (compute_heikin_ashi bars)[0]? = some hc →
      hc.ha_open = (b.open_ + b.close) / 2) ∧
    (∀ (i : ℕ) (hc hc2 : HACandle),
      (compute_heikin_ashi bars)[i]? = some hc →
      (compute_heikin_ashi bars)[i+1]? = some hc2 →
      hc2.ha_open = (hc.ha_open + hc.ha_close) / 2) := by
  refine ⟨compute_heikin_ashi_aux_length none bars,
    fun i b hc h1 h2 => compute_heikin_ashi_aux_high_low bars none i b hc h1 h2,
    ?_,
    fun i hc hc2 h1 h2 => compute_heikin_ashi_aux_chain bars none i hc hc2 h1 h2⟩
  intro b hc h1 h2
  cases bars with
  | nil => simp at h1
  | cons a rest =>
    simp only [List.getElem?_cons_zero, Option.some.injEq] at h1
    simp only [compute_heikin_ashi, compute_heikin_ashi_aux,
      List.getElem?_cons_zero, Option.some.injEq] at h2
    rw [← h1, ← h2]

/-- Witness for C8 on the spec's round-trip bars; the concrete output has
`ha_open = 101, ha_close = 100.5` at index 0 and
`ha_open = (101+100.5)/2 = 100.75` at index 1. -/
theorem claim_C8_transform_invariants_witness :
    barsExample ≠ [] ∧
    compute_heikin_ashi barsExample =
      [{ timestamp := 0, ha_open := 101, ha_high := 105, ha_low := 95,
         ha_close := 201/2, volume := 0 },
       { timestamp := 1, ha_open := 403/4, ha_high := 108, ha_low := 100,
         ha_close := 413/4, volume := 0 }] ∧
    ((compute_heikin_ashi barsExample).length = barsExample.length ∧
     (∀ (i : ℕ) (b : Bar) (hc : HACandle),
       barsExample[i]? = some b → (compute_heikin_ashi barsExample)[i]? = some hc →
       hc.ha_high = max b.high (max hc.ha_open hc.ha_close) ∧
       hc.ha_low = min b.low (min hc.ha_open hc.ha_close)) ∧
     (∀ (b : Bar) (hc : HACandle),
       barsExample[0]? = some b → (compute_heikin_ashi barsExample)[0]? = some hc →
       hc.ha_open = (b.open_ + b.close) / 2) ∧
     (∀ (i : ℕ) (hc hc2 : HACandle),
       (compute_heikin_ashi barsExample)[i]? = some hc →
       (compute_heikin_ashi barsExample)[i+1]? = some hc2 →
       hc2.ha_open = (hc.ha_open + hc.ha_close) / 2)) :=
  ⟨by simp [barsExample],
   by norm_num [compute_heikin_ashi, compute_heikin_ashi_aux, barsExample],
   claim_C8_transform_invariants barsExample (by simp [barsExample])⟩

end HACore
